import Mathlib

/-!
# Verification of the CCSD PTY session manager

Shallow embedding of `src/src-tauri/src/commands/terminal.rs` (the PTY
session manager) and proofs about it.

The manager keeps a global `HashMap<String, TerminalSession>` behind one
mutex (`TERMINAL_SESSIONS`) together with a global id counter behind a
second mutex (`SESSION_COUNTER`).  We model the map as an association
list with unique-key (HashMap-like) operations, the two counters folded
into one explicit state record, and each Tauri command as a pure state
transformer.  Fallible OS calls (PTY allocation, child spawn, reader
clone, writer take, write, flush, resize, child wait, the reader's
blocking read) are modelled by explicit outcome parameters: `none` means
the call succeeded, `some msg` that it failed with message `msg`, so a
theorem quantifying over these parameters covers every possible outcome
of the real calls.
-/

namespace CCSD

/-- One PTY session as stored in the registry
(struct `TerminalSession` in `terminal.rs`): the PTY master (of which we
model the only observable the code uses, its current geometry), the
writer (modelled as the list of bytes written to it so far), and the
cooperative-shutdown flag `closed`. -/
structure TerminalSession where
  masterRows : Nat
  masterCols : Nat
  writerBuf : List Nat
  closed : Bool
  deriving Repr, DecidableEq

/-- The registry map, `HashMap<String, TerminalSession>`, as an
association list with unique keys. -/
abbrev Registry := List (String × TerminalSession)

/-- Lookup, as `HashMap::get` / `get_mut`: first binding of the key, if any. -/
def Registry.find : Registry → String → Option TerminalSession
  | [], _ => none
  | (k, v) :: rest, key => if k = key then some v else Registry.find rest key

/-- Insertion, as `HashMap::insert`: replace the binding if the key is present,
otherwise append a fresh binding. -/
def Registry.insert : Registry → String → TerminalSession → Registry
  | [], key, v => [(key, v)]
  | (k, v') :: rest, key, v =>
    if k = key then (key, v) :: rest else (k, v') :: Registry.insert rest key v

/-- In-place mutation through `get_mut`: update the value at the key,
no-op when the key is absent. -/
def Registry.update : Registry → String → TerminalSession → Registry
  | [], _, _ => []
  | (k, v') :: rest, key, v =>
    if k = key then (key, v) :: rest else (k, v') :: Registry.update rest key v

/-- Deletion, as `HashMap::remove`: delete every binding of the key (exactly one on a
well-formed map). -/
def Registry.erase : Registry → String → Registry
  | [], _ => []
  | (k, v) :: rest, key =>
    if k = key then Registry.erase rest key else (k, v) :: Registry.erase rest key

/-- The keys of the registry, for stating which operations can shrink it. -/
def Registry.keys (m : Registry) : List String := m.map Prod.fst

/-- The whole mutable state of the manager: the session map
(`TERMINAL_SESSIONS`) and the id counter (`SESSION_COUNTER`). -/
structure TerminalState where
  sessions : Registry
  counter : Nat
  deriving Repr, DecidableEq

/-- The distinct error exits of the terminal commands.  In the source all
errors are strings (`AppResult<T> = Result<T, String>`); each constructor
here corresponds to exactly one `format!` site producing a distinctly
worded message, and carries that site's variable part. -/
inductive TermError where
  /-- Message "PTY の作成に失敗しました": `openpty` failed. -/
  | setupOpenPty (msg : String)
  /-- Message "シェルの起動に失敗しました": `spawn_command` failed. -/
  | setupSpawnChild (msg : String)
  /-- Message "PTYリーダーの作成に失敗しました": `try_clone_reader` failed. -/
  | setupCloneReader (msg : String)
  /-- Message "PTYライターの取得に失敗しました": `take_writer` failed. -/
  | setupTakeWriter (msg : String)
  /-- Message "セッション ... が見つかりません": unknown session id. -/
  | sessionNotFound (session_id : String)
  /-- Message "セッション ... は既に閉じられています": session already closed. -/
  | sessionClosed (session_id : String)
  /-- Message "ターミナルへの書き込みに失敗しました": `write_all` failed. -/
  | writeIo (msg : String)
  /-- Message "ターミナルへのフラッシュに失敗しました": `flush` failed. -/
  | flushIo (msg : String)
  /-- Message "ターミナルサイズの変更に失敗しました": `resize` failed. -/
  | resizeIo (msg : String)
  deriving Repr, DecidableEq

/-- Little-endian decimal digits of a natural number, with explicit
fuel (any fuel above the number suffices, see `decDigitsAux_fuel`). -/
def decDigitsAux : Nat → Nat → List Nat
  | 0, _ => []
  | fuel + 1, n => if n < 10 then [n] else n % 10 :: decDigitsAux fuel (n / 10)

/-- Little-endian decimal digits of a natural number. -/
def decDigits (n : Nat) : List Nat :=
  decDigitsAux (n + 1) n

/-- Rebuild a number from its little-endian decimal digits. -/
def fromDecDigits : List Nat → Nat
  | [] => 0
  | d :: rest => d + 10 * fromDecDigits rest

/-- Decimal rendering of a natural number, as Rust's `Display` for `u64`
prints it (most significant digit first). -/
def natToDecimal (n : Nat) : String :=
  ((decDigits n).reverse.map Nat.digitChar).asString

/-- Function `generate_session_id`: lock the counter, increment it, and render
"terminal-" followed by the new value.  The counter is modelled
explicitly: the function maps the old counter to the fresh id and the
new counter. -/
def generate_session_id (counter : Nat) : String × Nat :=
  ("terminal-" ++ natToDecimal (counter + 1), counter + 1)

/-- Outcomes of the four fallible setup steps of `spawn_terminal`, in
source order: `openpty`, `spawn_command`, `try_clone_reader`,
`take_writer`.  `none` = the OS call succeeded, `some msg` = it failed. -/
structure SpawnEnv where
  openPtyFail : Option String
  spawnChildFail : Option String
  cloneReaderFail : Option String
  takeWriterFail : Option String
  deriving Repr, DecidableEq

/-- Everything observable about one `spawn_terminal` call: the returned
`AppResult<String>`, the manager state afterwards, and whether the two
per-session threads (reader loop, exit watcher) were started. -/
structure SpawnOutcome where
  result : Except TermError String
  state : TerminalState
  readerThreadStarted : Bool
  exitWatcherStarted : Bool
  deriving Repr

/-- Command `spawn_terminal`: allocate the PTY pair, build and spawn the shell
command, generate the session id, obtain reader and writer, register the
session (geometry `rows × cols`, empty writer, `closed := false`), then
start the reader-loop and exit-watcher threads and return the id.  Each
`?` exit of the source is an early return here.  Note the id counter is
bumped before the two handle-acquisition steps, exactly as in the
source. -/
def spawn_terminal (st : TerminalState) (rows cols : Nat) (env : SpawnEnv) :
    SpawnOutcome :=
  match env.openPtyFail with
  | some e => ⟨.error (.setupOpenPty e), st, false, false⟩
  | none =>
  match env.spawnChildFail with
  | some e => ⟨.error (.setupSpawnChild e), st, false, false⟩
  | none =>
  let (session_id, counter') := generate_session_id st.counter
  let st1 : TerminalState := { st with counter := counter' }
  match env.cloneReaderFail with
  | some e => ⟨.error (.setupCloneReader e), st1, false, false⟩
  | none =>
  match env.takeWriterFail with
  | some e => ⟨.error (.setupTakeWriter e), st1, false, false⟩
  | none =>
  let st2 : TerminalState :=
    { st1 with
      sessions := st1.sessions.insert session_id
        { masterRows := rows, masterCols := cols, writerBuf := [], closed := false } }
  ⟨.ok session_id, st2, true, true⟩

/-- Command `write_terminal`: look the session up under the registry lock, fail
with the not-found message if absent and the already-closed message if
`closed`; otherwise `write_all` the bytes of `data` and `flush`.
`writeFail` / `flushFail` are the outcomes of the two I/O calls.  The
returned state is the registry after the call (on a failed `write_all`
no bytes are recorded; on a failed `flush` the bytes were already
written). -/
def write_terminal (st : TerminalState) (session_id : String) (data : List Nat)
    (writeFail flushFail : Option String) : Except TermError Unit × TerminalState :=
  match st.sessions.find session_id with
  | none => (.error (.sessionNotFound session_id), st)
  | some session =>
    if session.closed then (.error (.sessionClosed session_id), st)
    else
      match writeFail with
      | some e => (.error (.writeIo e), st)
      | none =>
        let st' : TerminalState :=
          { st with
            sessions := st.sessions.update session_id
              { session with writerBuf := session.writerBuf ++ data } }
        match flushFail with
        | some e => (.error (.flushIo e), st')
        | none => (.ok (), st')

/-- Command `resize_terminal`: same lookup and guards as `write_terminal`, then
apply the new `rows × cols` geometry to the session's master.
`resizeFail` is the outcome of the `MasterPty::resize` call. -/
def resize_terminal (st : TerminalState) (session_id : String) (rows cols : Nat)
    (resizeFail : Option String) : Except TermError Unit × TerminalState :=
  match st.sessions.find session_id with
  | none => (.error (.sessionNotFound session_id), st)
  | some session =>
    if session.closed then (.error (.sessionClosed session_id), st)
    else
      match resizeFail with
      | some e => (.error (.resizeIo e), st)
      | none =>
        (.ok (),
          { st with
            sessions := st.sessions.update session_id
              { session with masterRows := rows, masterCols := cols } })

/-- Command `close_terminal`: set the `closed` flag when the session exists;
return `Ok(())` either way. -/
def close_terminal (st : TerminalState) (session_id : String) :
    Except TermError Unit × TerminalState :=
  match st.sessions.find session_id with
  | some session =>
    (.ok (),
      { st with sessions := st.sessions.update session_id { session with closed := true } })
  | none => (.ok (), st)

/-- Command `get_terminal_session_count`: number of registry entries. -/
def get_terminal_session_count (st : TerminalState) : Nat :=
  st.sessions.length

/-! ## The per-session reader loop and exit watcher -/

/-- One return of the reader thread's blocking `reader.read(&mut buffer)`:
`eofRead` is `Ok(0)`, `bytesRead data` is `Ok(n)` with `n > 0` and `data`
the `n` bytes read (so `data` is nonempty in any real trace), `errRead`
is `Err(e)`. -/
inductive ReadResult where
  | eofRead
  | bytesRead (data : List Nat)
  | errRead (msg : String)
  deriving Repr, DecidableEq

/-- The events the manager emits to the frontend.  `output` carries the
bytes read (the source decodes them to text with lossy UTF-8
substitution before emitting; no claim depends on the decoding, so the
payload is kept as the raw bytes here). -/
inductive Event where
  | output (session_id : String) (data : List Nat)
  | exited (session_id : String) (code : Nat)
  | errored (session_id : String) (msg : String)
  deriving Repr, DecidableEq

/-- Whether an event is a terminal-exit event. -/
def Event.isExit : Event → Bool
  | .exited _ _ => true
  | _ => false

/-- Whether an event is an error event. -/
def Event.isError : Event → Bool
  | .errored _ _ => true
  | _ => false

/-- Why the reader loop's `loop` terminated: EOF break, read-error
break, observed `closed` flag, or session no longer in the registry. -/
inductive LoopBreak where
  | eofBreak
  | errBreak
  | closedBreak
  | goneBreak
  deriving Repr, DecidableEq

/-- The body of the reader loop over the observed sequence of read
returns: `Ok(0)` emits `exit{code: 0}` and breaks; `Ok(n)` emits an
`output` event and then performs the post-iteration check (break when
the session is marked closed or absent from the registry); `Err(e)`
emits an `error` event and breaks.  Returns the emitted events in order
and the break cause; `none` means the list of observed reads ran out
with the loop still blocked in `read` (so the cleanup below has not
happened yet).  The loop itself never mutates the state, so `st` is
read-only here. -/
def readerLoopBody (session_id : String) (st : TerminalState) :
    List ReadResult → List Event × Option LoopBreak
  | [] => ([], none)
  | .eofRead :: _ => ([.exited session_id 0], some .eofBreak)
  | .errRead e :: _ => ([.errored session_id e], some .errBreak)
  | .bytesRead data :: rest =>
    match st.sessions.find session_id with
    | some session =>
      if session.closed then ([.output session_id data], some .closedBreak)
      else
        (.output session_id data :: (readerLoopBody session_id st rest).1,
          (readerLoopBody session_id st rest).2)
    | none => ([.output session_id data], some .goneBreak)

/-- Observable outcome of one reader-loop run: the events emitted, the
break cause (if the loop terminated), the manager state afterwards, and
how many times `sessions.remove` was called for this session id. -/
structure LoopRun where
  events : List Event
  cause : Option LoopBreak
  state : TerminalState
  removeCalls : Nat
  deriving Repr, DecidableEq

/-- The whole reader-loop thread: run the loop body over the observed
reads and, once the loop has broken (for any cause), take the lock and
remove this session id from the registry — the single cleanup site of
the source. -/
def readerLoop (session_id : String) (reads : List ReadResult) (st : TerminalState) :
    LoopRun :=
  match (readerLoopBody session_id st reads).2 with
  | some b =>
    ⟨(readerLoopBody session_id st reads).1, some b,
      { st with sessions := st.sessions.erase session_id }, 1⟩
  | none => ⟨(readerLoopBody session_id st reads).1, none, st, 0⟩

/-- The exit-watcher thread: block on `child.wait()`; on `Ok(status)`
emit `exit` with the child's real exit code, on `Err(e)` log the failure
and emit nothing.  Returns the emitted events and the log lines. -/
def exitWatcher (session_id : String) (wait : Except String Nat) :
    List Event × List String :=
  match wait with
  | .ok code =>
    ([Event.exited session_id code],
      ["Terminal session " ++ session_id ++ " child exited"])
  | .error e =>
    ([], ["Terminal session " ++ session_id ++ " wait error: " ++ e])

/-! ## Lock-scope traces

To state where the global registry lock is held relative to blocking
I/O, each operation is also given as a trace of atomic actions read off
the source: acquiring/releasing the `TERMINAL_SESSIONS` mutex, a map
access under it, and a blocking PTY call (`read`, `write_all`, `flush`,
`resize`).  A `MutexGuard` is released where it is dropped: at the end
of the enclosing block, including early `?` returns. -/

inductive LockAction where
  | acquire
  | release
  | mapAccess
  | blockingIo
  deriving Repr, DecidableEq

/-- Does some blocking PTY call occur while the lock is held (at depth
`> 0`)?  `d` is the current lock depth. -/
def lockHeldDuringIoAux : List LockAction → Nat → Bool
  | [], _ => false
  | .acquire :: rest, d => lockHeldDuringIoAux rest (d + 1)
  | .release :: rest, d => lockHeldDuringIoAux rest (d - 1)
  | .mapAccess :: rest, d => lockHeldDuringIoAux rest d
  | .blockingIo :: rest, d => decide (0 < d) || lockHeldDuringIoAux rest d

/-- A trace holds the registry lock across blocking I/O when some
`blockingIo` action happens at positive lock depth. -/
def holdsLockAcrossIo (tr : List LockAction) : Bool :=
  lockHeldDuringIoAux tr 0

/-- Lock trace of `write_terminal`: the guard `sessions` is taken at the
top of the function and dropped only on return, so the lookup AND the
attempted `write_all` / `flush` calls all happen inside the critical
section.  `flush` is only reached when `write_all` succeeded. -/
def write_terminal_lockTrace (st : TerminalState) (session_id : String)
    (writeFail : Option String) : List LockAction :=
  [.acquire, .mapAccess] ++
    (match st.sessions.find session_id with
     | none => []
     | some session =>
       if session.closed then []
       else
         [.blockingIo] ++ (if writeFail.isNone then [.blockingIo] else [])) ++
    [.release]

/-- Lock trace of `resize_terminal`: as for `write_terminal`, the guard
spans the whole function, so the `resize` call happens under the lock. -/
def resize_terminal_lockTrace (st : TerminalState) (session_id : String) :
    List LockAction :=
  [.acquire, .mapAccess] ++
    (match st.sessions.find session_id with
     | none => []
     | some session => if session.closed then [] else [.blockingIo]) ++
    [.release]

/-- Lock trace of the registry insertion inside `spawn_terminal`: the
insert sits in its own block, so the guard is dropped before the threads
are spawned; all PTY setup happened before the lock was taken. -/
def spawn_insert_lockTrace : List LockAction :=
  [.acquire, .mapAccess, .release]

/-- Lock trace of `close_terminal`: lookup and flag write only. -/
def close_terminal_lockTrace : List LockAction :=
  [.acquire, .mapAccess, .release]

/-- Lock trace of `get_terminal_session_count`. -/
def count_lockTrace : List LockAction :=
  [.acquire, .mapAccess, .release]

/-- Lock trace of one non-breaking reader-loop iteration: the blocking
`read` happens with no lock held; the closed/presence check takes the
lock afterwards, and its guard is dropped at the end of the iteration,
before the next `read`. -/
def reader_iteration_lockTrace : List LockAction :=
  [.blockingIo, .acquire, .mapAccess, .release]

/-- Lock trace of the reader loop's cleanup (the `remove` after the
loop). -/
def reader_cleanup_lockTrace : List LockAction :=
  [.acquire, .mapAccess, .release]

/-! ## Whole-manager operation sequences

For claims that quantify over "any later call" we close the command
surface and the per-session threads under sequencing. -/

/-- One operation against the manager state. -/
inductive Op where
  | spawnOp (rows cols : Nat) (env : SpawnEnv)
  | writeOp (session_id : String) (data : List Nat) (writeFail flushFail : Option String)
  | resizeOp (session_id : String) (rows cols : Nat) (resizeFail : Option String)
  | closeOp (session_id : String)
  | countOp
  | readerOp (session_id : String) (reads : List ReadResult)
  | watcherOp (session_id : String) (wait : Except String Nat)
  deriving Repr

/-- The state transformer of each operation. -/
def applyOp (st : TerminalState) : Op → TerminalState
  | .spawnOp rows cols env => (spawn_terminal st rows cols env).state
  | .writeOp session_id data wf ff => (write_terminal st session_id data wf ff).2
  | .resizeOp session_id rows cols rf => (resize_terminal st session_id rows cols rf).2
  | .closeOp session_id => (close_terminal st session_id).2
  | .countOp => st
  | .readerOp session_id reads => (readerLoop session_id reads st).state
  | .watcherOp _ _ => st

/-- Run a sequence of operations left to right. -/
def runOps (st : TerminalState) (ops : List Op) : TerminalState :=
  ops.foldl applyOp st

/-- Whether an operation is a `spawn` (the only operation that can add a
registry entry). -/
def Op.isSpawn : Op → Bool
  | .spawnOp _ _ _ => true
  | _ => false

/-! ## Registry lemmas -/

theorem Registry.find_update_of_ne (m : Registry) (k k' : String) (v : TerminalSession)
    (h : k' ≠ k) : (m.update k v).find k' = m.find k' := by
  induction m with
  | nil => rfl
  | cons hd tl ih =>
    obtain ⟨kh, vh⟩ := hd
    by_cases hk : kh = k
    · subst hk
      simp [Registry.update, Registry.find, (by simpa using h : k' ≠ kh),
        (by simpa using h.symm : ¬ kh = k')]
    · simp only [Registry.update, Registry.find, if_neg hk]
      by_cases hk' : kh = k'
      · simp [hk']
      · simp [hk', ih]

theorem Registry.find_update_self_some (m : Registry) (k : String)
    (v s : TerminalSession) (h : m.find k = some s) :
    (m.update k v).find k = some v := by
  induction m with
  | nil => simp [Registry.find] at h
  | cons hd tl ih =>
    obtain ⟨kh, vh⟩ := hd
    by_cases hk : kh = k
    · simp [Registry.update, Registry.find, hk]
    · simp only [Registry.find, if_neg hk] at h
      simp only [Registry.update, Registry.find, if_neg hk]
      exact ih h

theorem Registry.find_update_self_none (m : Registry) (k : String)
    (v : TerminalSession) (h : m.find k = none) :
    (m.update k v).find k = none := by
  induction m with
  | nil => rfl
  | cons hd tl ih =>
    obtain ⟨kh, vh⟩ := hd
    by_cases hk : kh = k
    · simp [Registry.find, hk] at h
    · simp only [Registry.find, if_neg hk] at h
      simp only [Registry.update, Registry.find, if_neg hk]
      exact ih h

/-- A key absent from the registry stays absent under any in-place
update. -/
theorem Registry.find_update_none (m : Registry) (k k' : String)
    (v : TerminalSession) (h : m.find k = none) :
    (m.update k' v).find k = none := by
  by_cases hk : k = k'
  · subst hk; exact m.find_update_self_none k v h
  · rw [m.find_update_of_ne k' k v hk]; exact h

theorem Registry.keys_update (m : Registry) (k : String) (v : TerminalSession) :
    (m.update k v).keys = m.keys := by
  induction m with
  | nil => rfl
  | cons hd tl ih =>
    obtain ⟨kh, vh⟩ := hd
    by_cases hk : kh = k
    · simp [Registry.update, Registry.keys, hk]
    · simpa [Registry.update, Registry.keys, hk] using ih

theorem Registry.find_erase_self (m : Registry) (k : String) :
    (m.erase k).find k = none := by
  induction m with
  | nil => rfl
  | cons hd tl ih =>
    obtain ⟨kh, vh⟩ := hd
    by_cases hk : kh = k
    · simpa [Registry.erase, hk] using ih
    · simpa [Registry.erase, Registry.find, hk] using ih

theorem Registry.find_erase_of_ne (m : Registry) (k k' : String)
    (h : k' ≠ k) : (m.erase k).find k' = m.find k' := by
  induction m with
  | nil => rfl
  | cons hd tl ih =>
    obtain ⟨kh, vh⟩ := hd
    by_cases hk : kh = k
    · subst hk
      simpa [Registry.erase, Registry.find, (by simpa using h.symm : ¬ kh = k')] using ih
    · by_cases hk' : kh = k'
      · simp [Registry.erase, Registry.find, hk, hk', h]
      · simpa [Registry.erase, Registry.find, hk, hk'] using ih

theorem Registry.find_insert_self (m : Registry) (k : String) (v : TerminalSession) :
    (m.insert k v).find k = some v := by
  induction m with
  | nil => simp [Registry.insert, Registry.find]
  | cons hd tl ih =>
    obtain ⟨kh, vh⟩ := hd
    by_cases hk : kh = k
    · simp [Registry.insert, Registry.find, hk]
    · simpa [Registry.insert, Registry.find, hk] using ih

theorem Registry.find_insert_of_ne (m : Registry) (k k' : String)
    (v : TerminalSession) (h : k' ≠ k) : (m.insert k v).find k' = m.find k' := by
  induction m with
  | nil => simp [Registry.insert, Registry.find, (by simpa using h.symm : ¬ k = k')]
  | cons hd tl ih =>
    obtain ⟨kh, vh⟩ := hd
    by_cases hk : kh = k
    · subst hk
      simp [Registry.insert, Registry.find, (by simpa using h : k' ≠ kh),
        (by simpa using h.symm : ¬ kh = k')]
    · by_cases hk' : kh = k'
      · simp [Registry.insert, Registry.find, hk, hk', h]
      · simpa [Registry.insert, Registry.find, hk, hk'] using ih

/-- A key absent from the registry stays absent under any erase. -/
theorem Registry.find_erase_none (m : Registry) (k k' : String)
    (h : m.find k = none) : (m.erase k').find k = none := by
  by_cases hk : k = k'
  · subst hk; exact m.find_erase_self k
  · rw [m.find_erase_of_ne k' k hk]; exact h

/-- The keys of the registry before an insert are still keys afterwards. -/
theorem Registry.keys_subset_keys_insert (m : Registry) (k : String) (v : TerminalSession) :
    m.keys ⊆ (m.insert k v).keys := by
  induction m with
  | nil => simp [Registry.insert, Registry.keys]
  | cons hd tl ih =>
    obtain ⟨kh, vh⟩ := hd
    by_cases hk : kh = k
    · subst hk
      simp [Registry.insert, Registry.keys]
    · simp only [Registry.insert, if_neg hk, Registry.keys, List.map_cons] at *
      exact List.cons_subset_cons kh ih

/-! ## Decimal session-id encoding -/

/-- With fuel above the number, rebuilding from the digits inverts
`decDigitsAux`. -/
theorem fromDecDigits_decDigitsAux (fuel n : Nat) (h : n < fuel) :
    fromDecDigits (decDigitsAux fuel n) = n := by
  induction fuel generalizing n with
  | zero => omega
  | succ f ih =>
    rw [decDigitsAux]
    by_cases h10 : n < 10
    · simp [h10, fromDecDigits]
    · have hdiv : n / 10 < n := Nat.div_lt_self (by omega) (by omega)
      rw [if_neg h10, fromDecDigits, ih (n / 10) (by omega)]
      omega

/-- Rebuilding a number from its little-endian decimal digits inverts
`decDigits`. -/
theorem fromDecDigits_decDigits (n : Nat) : fromDecDigits (decDigits n) = n :=
  fromDecDigits_decDigitsAux (n + 1) n (Nat.lt_succ_self n)

/-- Every decimal digit produced by `decDigitsAux` is below 10. -/
theorem decDigitsAux_lt (fuel n : Nat) (h : n < fuel) :
    ∀ d ∈ decDigitsAux fuel n, d < 10 := by
  induction fuel generalizing n with
  | zero => omega
  | succ f ih =>
    rw [decDigitsAux]
    by_cases h10 : n < 10
    · simp [h10]
    · have hdiv : n / 10 < n := Nat.div_lt_self (by omega) (by omega)
      rw [if_neg h10]
      intro d hd
      rcases List.mem_cons.mp hd with h' | h'
      · omega
      · exact ih (n / 10) (by omega) d h'

/-- Every decimal digit produced by `decDigits` is below 10. -/
theorem decDigits_lt (n : Nat) : ∀ d ∈ decDigits n, d < 10 :=
  decDigitsAux_lt (n + 1) n (Nat.lt_succ_self n)

/-- Numeric value of a decimal digit character. -/
def digitVal (c : Char) : Nat := c.toNat - 48

theorem digitVal_digitChar (d : Nat) (h : d < 10) :
    digitVal (Nat.digitChar d) = d := by
  interval_cases d <;> rfl

theorem map_digitVal_map_digitChar (l : List Nat) (h : ∀ d ∈ l, d < 10) :
    (l.map Nat.digitChar).map digitVal = l := by
  induction l with
  | nil => rfl
  | cons d rest ih =>
    simp only [List.map_cons, List.cons.injEq]
    exact ⟨digitVal_digitChar d (h d (List.mem_cons_self d rest)),
      ih fun d' hd' => h d' (List.mem_cons_of_mem d hd')⟩

/-- The decimal rendering of a natural number determines the number. -/
theorem natToDecimal_injective (a b : Nat) (h : natToDecimal a = natToDecimal b) :
    a = b := by
  have hdata : (decDigits a).reverse.map Nat.digitChar
      = (decDigits b).reverse.map Nat.digitChar := by
    simpa [natToDecimal, List.asString] using congrArg String.data h
  have hrev : (decDigits a).reverse = (decDigits b).reverse := by
    have ha : ∀ d ∈ (decDigits a).reverse, d < 10 :=
      fun d hd => decDigits_lt a d (List.mem_reverse.mp hd)
    have hb : ∀ d ∈ (decDigits b).reverse, d < 10 :=
      fun d hd => decDigits_lt b d (List.mem_reverse.mp hd)
    calc (decDigits a).reverse
        = ((decDigits a).reverse.map Nat.digitChar).map digitVal :=
          (map_digitVal_map_digitChar _ ha).symm
      _ = ((decDigits b).reverse.map Nat.digitChar).map digitVal := by rw [hdata]
      _ = (decDigits b).reverse := map_digitVal_map_digitChar _ hb
  have hdig : decDigits a = decDigits b := by
    simpa using congrArg List.reverse hrev
  calc a = fromDecDigits (decDigits a) := (fromDecDigits_decDigits a).symm
    _ = fromDecDigits (decDigits b) := by rw [hdig]
    _ = b := fromDecDigits_decDigits b

/-- Two session-id strings with different counter values differ. -/
theorem sessionId_injective (a b : Nat)
    (h : "terminal-" ++ natToDecimal a = "terminal-" ++ natToDecimal b) : a = b := by
  apply natToDecimal_injective
  apply String.ext
  have := congrArg String.data h
  simpa [String.data_append] using this

/-! ## Frame and monotonicity lemmas -/

/-- Command `write_terminal` never changes the set of registry keys. -/
theorem write_terminal_keys (st : TerminalState) (session_id : String)
    (data : List Nat) (writeFail flushFail : Option String) :
    (write_terminal st session_id data writeFail flushFail).2.sessions.keys
      = st.sessions.keys := by
  unfold write_terminal
  cases h : st.sessions.find session_id with
  | none => rfl
  | some s =>
    by_cases hc : s.closed
    · simp [hc]
    · cases writeFail with
      | some e => simp [hc]
      | none =>
        cases flushFail with
        | some e => simp [hc, Registry.keys_update]
        | none => simp [hc, Registry.keys_update]

/-- Command `resize_terminal` never changes the set of registry keys. -/
theorem resize_terminal_keys (st : TerminalState) (session_id : String)
    (rows cols : Nat) (resizeFail : Option String) :
    (resize_terminal st session_id rows cols resizeFail).2.sessions.keys
      = st.sessions.keys := by
  unfold resize_terminal
  cases h : st.sessions.find session_id with
  | none => rfl
  | some s =>
    by_cases hc : s.closed
    · simp [hc]
    · cases resizeFail with
      | some e => simp [hc]
      | none => simp [hc, Registry.keys_update]

/-- Command `close_terminal` never changes the set of registry keys. -/
theorem close_terminal_keys (st : TerminalState) (session_id : String) :
    (close_terminal st session_id).2.sessions.keys = st.sessions.keys := by
  unfold close_terminal
  cases h : st.sessions.find session_id with
  | none => rfl
  | some s => simp [Registry.keys_update]

/-- Command `spawn_terminal` never removes a registry key. -/
theorem spawn_terminal_keys_subset (st : TerminalState) (rows cols : Nat)
    (env : SpawnEnv) :
    st.sessions.keys ⊆ (spawn_terminal st rows cols env).state.sessions.keys := by
  unfold spawn_terminal
  obtain ⟨o, s, c, t⟩ := env
  cases o with
  | some e => exact fun _ h => h
  | none =>
    cases s with
    | some e => exact fun _ h => h
    | none =>
      cases c with
      | some e => exact fun _ h => h
      | none =>
        cases t with
        | some e => exact fun _ h => h
        | none => exact Registry.keys_subset_keys_insert _ _ _

/-- A successful `spawn_terminal` call had all four setup steps succeed,
returned the id rendered from the incremented counter, and left that
incremented counter in the state. -/
theorem spawn_terminal_ok (st : TerminalState) (rows cols : Nat) (env : SpawnEnv)
    (session_id : String)
    (h : (spawn_terminal st rows cols env).result = .ok session_id) :
    session_id = "terminal-" ++ natToDecimal (st.counter + 1) ∧
    (spawn_terminal st rows cols env).state.counter = st.counter + 1 := by
  obtain ⟨o, s, c, t⟩ := env
  cases o <;> cases s <;> cases c <;> cases t <;>
    simp_all [spawn_terminal, generate_session_id]

/-- No operation ever decreases the id counter. -/
theorem counter_le_applyOp (st : TerminalState) (op : Op) :
    st.counter ≤ (applyOp st op).counter := by
  cases op with
  | spawnOp rows cols env =>
    obtain ⟨o, s, c, t⟩ := env
    cases o <;> cases s <;> cases c <;> cases t <;>
      simp [applyOp, spawn_terminal, generate_session_id]
  | writeOp session_id data wf ff =>
    simp only [applyOp]
    unfold write_terminal
    cases h : st.sessions.find session_id with
    | none => exact Nat.le_refl _
    | some s =>
      by_cases hc : s.closed
      · simp [hc]
      · cases wf with
        | some e => simp [hc]
        | none => cases ff with
          | some e => simp [hc]
          | none => simp [hc]
  | resizeOp session_id rows cols rf =>
    simp only [applyOp]
    unfold resize_terminal
    cases h : st.sessions.find session_id with
    | none => exact Nat.le_refl _
    | some s =>
      by_cases hc : s.closed
      · simp [hc]
      · cases rf with
        | some e => simp [hc]
        | none => simp [hc]
  | closeOp session_id =>
    simp only [applyOp]
    unfold close_terminal
    cases h : st.sessions.find session_id with
    | none => exact Nat.le_refl _
    | some s => simp
  | countOp => exact Nat.le_refl _
  | readerOp session_id reads =>
    simp only [applyOp]
    unfold readerLoop
    cases h : (readerLoopBody session_id st reads).2 with
    | none => exact Nat.le_refl _
    | some b => simp
  | watcherOp session_id wait => exact Nat.le_refl _

/-- No sequence of operations ever decreases the id counter. -/
theorem counter_le_runOps (st : TerminalState) (ops : List Op) :
    st.counter ≤ (runOps st ops).counter := by
  induction ops generalizing st with
  | nil => exact Nat.le_refl _
  | cons op rest ih =>
    exact Nat.le_trans (counter_le_applyOp st op) (ih (applyOp st op))

/-- A session id absent from the registry stays absent under any
sequence of non-spawn operations. -/
theorem find_none_runOps (st : TerminalState) (ops : List Op) (session_id : String)
    (hops : ∀ op ∈ ops, op.isSpawn = false)
    (h : st.sessions.find session_id = none) :
    (runOps st ops).sessions.find session_id = none := by
  induction ops generalizing st with
  | nil => exact h
  | cons op rest ih =>
    refine ih (applyOp st op) (fun o ho => hops o (List.mem_cons_of_mem op ho)) ?_
    cases op with
    | spawnOp rows cols env =>
      exact absurd (hops _ (List.mem_cons_self _ _)) (by simp [Op.isSpawn])
    | writeOp sid' data wf ff =>
      simp only [applyOp]
      unfold write_terminal
      cases hf : st.sessions.find sid' with
      | none => exact h
      | some s =>
        by_cases hc : s.closed
        · simp [hc, h]
        · cases wf with
          | some e => simp [hc, h]
          | none => cases ff with
            | some e => simp [hc]; exact st.sessions.find_update_none _ _ _ h
            | none => simp [hc]; exact st.sessions.find_update_none _ _ _ h
    | resizeOp sid' rows cols rf =>
      simp only [applyOp]
      unfold resize_terminal
      cases hf : st.sessions.find sid' with
      | none => exact h
      | some s =>
        by_cases hc : s.closed
        · simp [hc, h]
        · cases rf with
          | some e => simp [hc, h]
          | none => simp [hc]; exact st.sessions.find_update_none _ _ _ h
    | closeOp sid' =>
      simp only [applyOp]
      unfold close_terminal
      cases hf : st.sessions.find sid' with
      | none => exact h
      | some s => simp; exact st.sessions.find_update_none _ _ _ h
    | countOp => exact h
    | readerOp sid' reads =>
      simp only [applyOp]
      unfold readerLoop
      cases hb : (readerLoopBody sid' st reads).2 with
      | none => exact h
      | some b => simp; exact st.sessions.find_erase_none _ _ h
    | watcherOp sid' wait => exact h

/-- A reader-loop run that broke on EOF emitted exactly one exit event —
`exit{code: 0}` for its own session — and no error event. -/
theorem readerLoopBody_eof (session_id : String) (st : TerminalState)
    (reads : List ReadResult)
    (h : (readerLoopBody session_id st reads).2 = some .eofBreak) :
    (readerLoopBody session_id st reads).1.filter Event.isExit
        = [Event.exited session_id 0] ∧
    (readerLoopBody session_id st reads).1.filter Event.isError = [] := by
  induction reads with
  | nil => simp [readerLoopBody] at h
  | cons r rest ih =>
    cases r with
    | eofRead => simp [readerLoopBody, Event.isExit, Event.isError]
    | errRead e => simp [readerLoopBody] at h
    | bytesRead data =>
      simp only [readerLoopBody] at h ⊢
      cases hf : st.sessions.find session_id with
      | none => simp [hf] at h
      | some s =>
        by_cases hc : s.closed
        · simp [hf, hc] at h
        · simp only [hf, hc] at h
          simp only [hf, hc, if_false, List.filter]
          simpa [Event.isExit, Event.isError] using ih h

/-- A reader-loop run that broke on a read error emitted exactly one
error event — carrying its own session id and the error description —
and no exit event. -/
theorem readerLoopBody_err (session_id : String) (st : TerminalState)
    (reads : List ReadResult)
    (h : (readerLoopBody session_id st reads).2 = some .errBreak) :
    (∃ m, ReadResult.errRead m ∈ reads ∧
      (readerLoopBody session_id st reads).1.filter Event.isError
        = [Event.errored session_id m]) ∧
    (readerLoopBody session_id st reads).1.filter Event.isExit = [] := by
  induction reads with
  | nil => simp [readerLoopBody] at h
  | cons r rest ih =>
    cases r with
    | eofRead => simp [readerLoopBody] at h
    | errRead e =>
      refine ⟨⟨e, List.mem_cons_self _ _, ?_⟩, ?_⟩ <;>
        simp [readerLoopBody, Event.isExit, Event.isError]
    | bytesRead data =>
      simp only [readerLoopBody] at h ⊢
      cases hf : st.sessions.find session_id with
      | none => simp [hf] at h
      | some s =>
        by_cases hc : s.closed
        · simp [hf, hc] at h
        · simp only [hf, hc] at h
          obtain ⟨⟨m, hm, hfil⟩, hexit⟩ := ih h
          refine ⟨⟨m, List.mem_cons_of_mem _ hm, ?_⟩, ?_⟩ <;>
            simp [hf, hc, Event.isExit, Event.isError, hfil, hexit,
              List.filter]

/-! ## Claim theorems -/

/-- A concrete one-session manager state used by the witnesses below:
session "terminal-1" is open with a 24 × 80 PTY and nothing written
yet. -/
def sampleState : TerminalState :=
  ⟨[("terminal-1", { masterRows := 24, masterCols := 80, writerBuf := [], closed := false })], 1⟩

/-- Claim C6: `close_terminal` returns ok for every id, including ids never
issued; when the session exists it only sets that session's `closed`
flag — the session stays registered with its writer and master intact,
every other session is untouched, and the id counter is unchanged. -/
theorem close_terminal_spec (st : TerminalState) (session_id : String) :
    (close_terminal st session_id).1 = .ok () ∧
    (close_terminal st session_id).2.counter = st.counter ∧
    (st.sessions.find session_id = none → (close_terminal st session_id).2 = st) ∧
    (∀ s, st.sessions.find session_id = some s →
      (close_terminal st session_id).2.sessions.find session_id
          = some { s with closed := true } ∧
      (∀ k, k ≠ session_id →
        (close_terminal st session_id).2.sessions.find k = st.sessions.find k) ∧
      (close_terminal st session_id).2.sessions.keys = st.sessions.keys) := by
  cases h : st.sessions.find session_id with
  | none =>
    refine ⟨?_, ?_, fun _ => ?_, fun s hs => ?_⟩ <;>
      simp_all [close_terminal, h]
  | some s =>
    refine ⟨?_, ?_, fun hn => ?_, fun s' hs' => ?_⟩
    · simp [close_terminal, h]
    · simp [close_terminal, h]
    · cases hn
    · cases hs'
      simp only [close_terminal, h]
      exact ⟨st.sessions.find_update_self_some _ _ _ h,
        fun k hk => st.sessions.find_update_of_ne _ _ _ hk,
        st.sessions.keys_update _ _⟩

/-- Witness for C6 at a concrete state: closing "terminal-1" flips only
its flag; closing the unknown "terminal-9" changes nothing. -/
theorem close_terminal_spec_witness :
    (close_terminal sampleState "terminal-1").2.sessions.find "terminal-1"
        = some { masterRows := 24, masterCols := 80, writerBuf := [], closed := true } ∧
    (close_terminal sampleState "terminal-9").2 = sampleState :=
  ⟨((close_terminal_spec sampleState "terminal-1").2.2.2
      { masterRows := 24, masterCols := 80, writerBuf := [], closed := false } rfl).1,
    (close_terminal_spec sampleState "terminal-9").2.2.1 rfl⟩

/-- Claim C8: when the exit watcher's `child.wait()` succeeds it emits one
`exit` event with the session id and the child's real exit code; when it
fails, the failure is only logged and no event of any kind is emitted. -/
theorem exitWatcher_spec (session_id : String) (wait : Except String Nat) :
    (∀ code, wait = .ok code →
      (exitWatcher session_id wait).1 = [Event.exited session_id code]) ∧
    (∀ e, wait = .error e →
      (exitWatcher session_id wait).1 = [] ∧
      (exitWatcher session_id wait).2
          = ["Terminal session " ++ session_id ++ " wait error: " ++ e]) := by
  constructor
  · rintro code rfl; rfl
  · rintro e rfl; exact ⟨rfl, rfl⟩

/-- Witness for C8 at concrete wait outcomes. -/
theorem exitWatcher_spec_witness :
    (exitWatcher "terminal-1" (.ok 3)).1 = [Event.exited "terminal-1" 3] ∧
    (exitWatcher "terminal-1" (.error "boom")).1 = [] :=
  ⟨(exitWatcher_spec "terminal-1" (.ok 3)).1 3 rfl,
    ((exitWatcher_spec "terminal-1" (.error "boom")).2 "boom" rfl).1⟩

/-- Claim C10: a `write_terminal` call that fails with the not-found or the
already-closed error leaves the whole manager state — registry
membership, closed flags, writers, counter — exactly as it was, and in
particular writes no bytes to any writer. -/
theorem write_terminal_error_frame (st : TerminalState) (session_id : String)
    (data : List Nat) (writeFail flushFail : Option String)
    (h : (write_terminal st session_id data writeFail flushFail).1
          = .error (.sessionNotFound session_id) ∨
        (write_terminal st session_id data writeFail flushFail).1
          = .error (.sessionClosed session_id)) :
    (write_terminal st session_id data writeFail flushFail).2 = st := by
  unfold write_terminal at h ⊢
  cases hf : st.sessions.find session_id with
  | none => simp [hf]
  | some s =>
    by_cases hc : s.closed
    · simp [hf, hc]
    · simp only [hf, hc, if_false] at h ⊢
      cases writeFail with
      | some e => simp at h
      | none =>
        cases flushFail with
        | some e => simp at h
        | none => simp at h

/-- Witness for C10: writing to the never-issued id "terminal-9" in the
sample state leaves the state untouched. -/
theorem write_terminal_error_frame_witness :
    (write_terminal sampleState "terminal-9" [104, 105] none none).2 = sampleState :=
  write_terminal_error_frame sampleState "terminal-9" [104, 105] none none (Or.inl rfl)

/-- Claim C4: a `spawn_terminal` call that fails at any setup step returns
the error of exactly the step that failed, records no session in the
registry, and starts neither the reader-loop thread nor the exit-watcher
thread. -/
theorem spawn_terminal_failure_spec (st : TerminalState) (rows cols : Nat)
    (env : SpawnEnv) :
    (∀ m, env.openPtyFail = some m →
      spawn_terminal st rows cols env = ⟨.error (.setupOpenPty m), st, false, false⟩) ∧
    (∀ m, env.openPtyFail = none → env.spawnChildFail = some m →
      spawn_terminal st rows cols env = ⟨.error (.setupSpawnChild m), st, false, false⟩) ∧
    (∀ m, env.openPtyFail = none → env.spawnChildFail = none →
        env.cloneReaderFail = some m →
      spawn_terminal st rows cols env
        = ⟨.error (.setupCloneReader m), { st with counter := st.counter + 1 },
            false, false⟩) ∧
    (∀ m, env.openPtyFail = none → env.spawnChildFail = none →
        env.cloneReaderFail = none → env.takeWriterFail = some m →
      spawn_terminal st rows cols env
        = ⟨.error (.setupTakeWriter m), { st with counter := st.counter + 1 },
            false, false⟩) ∧
    (∀ e, (spawn_terminal st rows cols env).result = .error e →
      (spawn_terminal st rows cols env).state.sessions = st.sessions ∧
      (spawn_terminal st rows cols env).readerThreadStarted = false ∧
      (spawn_terminal st rows cols env).exitWatcherStarted = false) := by
  obtain ⟨o, sc, cr, tw⟩ := env
  cases o <;> cases sc <;> cases cr <;> cases tw <;>
    simp_all [spawn_terminal, generate_session_id]

/-- Witness for C4: a spawn whose PTY allocation fails returns the
PTY-allocation error, registers nothing, and starts no threads. -/
theorem spawn_terminal_failure_spec_witness :
    spawn_terminal sampleState 24 80 ⟨some "no pty", none, none, none⟩
      = ⟨.error (.setupOpenPty "no pty"), sampleState, false, false⟩ :=
  (spawn_terminal_failure_spec sampleState 24 80
    ⟨some "no pty", none, none, none⟩).1 "no pty" rfl

/-- The all-steps-succeed spawn environment. -/
def envAllOk : SpawnEnv := ⟨none, none, none, none⟩

/-- A spawn environment in which only `try_clone_reader` fails. -/
def envCloneReaderFail (m : String) : SpawnEnv := ⟨none, none, some m, none⟩

/-- Claim C9: a spawn that fails at the reader-clone step has nevertheless
incremented the global id counter (the id is generated before that
step), while leaving the registry unchanged; consequently two successful
spawns separated by such a failed spawn receive ids two counter values
apart — a gap. -/
theorem spawn_failure_counter_gap (st : TerminalState) (rows cols : Nat)
    (m : String) :
    (spawn_terminal st rows cols (envCloneReaderFail m)).result
        = .error (.setupCloneReader m) ∧
    (spawn_terminal st rows cols (envCloneReaderFail m)).state.counter
        = st.counter + 1 ∧
    (spawn_terminal st rows cols (envCloneReaderFail m)).state.sessions
        = st.sessions ∧
    (spawn_terminal st rows cols envAllOk).result
        = .ok ("terminal-" ++ natToDecimal (st.counter + 1)) ∧
    (spawn_terminal
        ((spawn_terminal
            ((spawn_terminal st rows cols envAllOk).state) rows cols
            (envCloneReaderFail m)).state) rows cols envAllOk).result
        = .ok ("terminal-" ++ natToDecimal (st.counter + 3)) := by
  refine ⟨rfl, rfl, rfl, rfl, ?_⟩
  simp [spawn_terminal, generate_session_id, envAllOk, envCloneReaderFail]

/-- Claim C2: `write_terminal` and `resize_terminal` return the not-found
error on an unknown id and the already-closed error on a closed session;
on a live session, `write_terminal` appends exactly the bytes of `data`
to the session's writer and flushes (and `resize_terminal` applies the
new `rows × cols` geometry to the master), returning ok on success and
the corresponding I/O error when an I/O call fails; and every call
returns one of exactly these results. -/
theorem write_resize_result_spec (st : TerminalState) (session_id : String)
    (data : List Nat) (rows cols : Nat)
    (writeFail flushFail resizeFail : Option String) :
    (st.sessions.find session_id = none →
      write_terminal st session_id data writeFail flushFail
          = (.error (.sessionNotFound session_id), st) ∧
      resize_terminal st session_id rows cols resizeFail
          = (.error (.sessionNotFound session_id), st)) ∧
    (∀ s, st.sessions.find session_id = some s → s.closed = true →
      write_terminal st session_id data writeFail flushFail
          = (.error (.sessionClosed session_id), st) ∧
      resize_terminal st session_id rows cols resizeFail
          = (.error (.sessionClosed session_id), st)) ∧
    (∀ s, st.sessions.find session_id = some s → s.closed = false →
      write_terminal st session_id data none none
          = (.ok (),
              { st with
                sessions := st.sessions.update session_id
                  { s with writerBuf := s.writerBuf ++ data } }) ∧
      resize_terminal st session_id rows cols none
          = (.ok (),
              { st with
                sessions := st.sessions.update session_id
                  { s with masterRows := rows, masterCols := cols } }) ∧
      (∀ m, (write_terminal st session_id data (some m) flushFail).1
          = .error (.writeIo m)) ∧
      (∀ m, (write_terminal st session_id data none (some m)).1
          = .error (.flushIo m)) ∧
      (∀ m, (resize_terminal st session_id rows cols (some m)).1
          = .error (.resizeIo m))) ∧
    ((write_terminal st session_id data writeFail flushFail).1 = .ok () ∨
      (write_terminal st session_id data writeFail flushFail).1
          = .error (.sessionNotFound session_id) ∨
      (write_terminal st session_id data writeFail flushFail).1
          = .error (.sessionClosed session_id) ∨
      (∃ m, (write_terminal st session_id data writeFail flushFail).1
          = .error (.writeIo m)) ∨
      (∃ m, (write_terminal st session_id data writeFail flushFail).1
          = .error (.flushIo m))) ∧
    ((resize_terminal st session_id rows cols resizeFail).1 = .ok () ∨
      (resize_terminal st session_id rows cols resizeFail).1
          = .error (.sessionNotFound session_id) ∨
      (resize_terminal st session_id rows cols resizeFail).1
          = .error (.sessionClosed session_id) ∨
      (∃ m, (resize_terminal st session_id rows cols resizeFail).1
          = .error (.resizeIo m))) := by
  cases hf : st.sessions.find session_id with
  | none =>
    refine ⟨fun _ => ?_, fun s hs _ => ?_, fun s hs _ => ?_, ?_, ?_⟩
    · exact ⟨by simp [write_terminal, hf], by simp [resize_terminal, hf]⟩
    · cases hs
    · cases hs
    · exact Or.inr (Or.inl (by simp [write_terminal, hf]))
    · exact Or.inr (Or.inl (by simp [resize_terminal, hf]))
  | some s =>
    by_cases hc : s.closed
    · refine ⟨fun hn => ?_, fun s' hs' _ => ?_, fun s' hs' hc' => ?_, ?_, ?_⟩
      · cases hn
      · cases hs'
        exact ⟨by simp [write_terminal, hf, hc], by simp [resize_terminal, hf, hc]⟩
      · cases hs'; rw [hc] at hc'; cases hc'
      · exact Or.inr (Or.inr (Or.inl (by simp [write_terminal, hf, hc])))
      · exact Or.inr (Or.inr (Or.inl (by simp [resize_terminal, hf, hc])))
    · refine ⟨fun hn => ?_, fun s' hs' hc' => ?_, fun s' hs' _ => ?_, ?_, ?_⟩
      · cases hn
      · cases hs'; simp [hc'] at hc
      · cases hs'
        refine ⟨by simp [write_terminal, hf, hc], by simp [resize_terminal, hf, hc],
          fun m => by simp [write_terminal, hf, hc],
          fun m => by simp [write_terminal, hf, hc],
          fun m => by simp [resize_terminal, hf, hc]⟩
      · cases writeFail with
        | some m =>
          exact Or.inr (Or.inr (Or.inr (Or.inl ⟨m, by simp [write_terminal, hf, hc]⟩)))
        | none =>
          cases flushFail with
          | some m =>
            exact Or.inr (Or.inr (Or.inr (Or.inr ⟨m, by simp [write_terminal, hf, hc]⟩)))
          | none => exact Or.inl (by simp [write_terminal, hf, hc])
      · cases resizeFail with
        | some m =>
          exact Or.inr (Or.inr (Or.inr ⟨m, by simp [resize_terminal, hf, hc]⟩))
        | none => exact Or.inl (by simp [resize_terminal, hf, hc])

/-- Witness for C2 at concrete inputs: an unknown id is rejected, a
closed session is rejected, and a successful write appends exactly the
written bytes. -/
theorem write_resize_result_spec_witness :
    (write_terminal sampleState "terminal-9" [104] none none
        = (.error (.sessionNotFound "terminal-9"), sampleState)) ∧
    (write_terminal sampleState "terminal-1" [104, 105] none none
        = (.ok (), { sessions := [("terminal-1",
            { masterRows := 24, masterCols := 80, writerBuf := [104, 105],
              closed := false })], counter := 1 })) :=
  ⟨((write_resize_result_spec sampleState "terminal-9" [104] 24 80 none none none).1
      rfl).1,
    ((write_resize_result_spec sampleState "terminal-1" [104, 105] 24 80 none none
        none).2.2.1
      { masterRows := 24, masterCols := 80, writerBuf := [], closed := false }
      rfl rfl).1⟩

/-- Claim C3, counterexample: in the sample state, the lock trace of a
`write_terminal` call on the live session "terminal-1" performs its
blocking write and flush while the registry lock is held — the claim
that the blocking I/O of `write` occurs outside the lock is false. -/
theorem write_lock_counterexample :
    holdsLockAcrossIo
        (write_terminal_lockTrace sampleState "terminal-1" none) = true ∧
    holdsLockAcrossIo
        (resize_terminal_lockTrace sampleState "terminal-1") = true := by
  constructor <;> rfl

/-- Claim C3, amended: the registry insert of `spawn`, `close`, `count`,
and the reader loop's per-iteration check and final cleanup hold the
lock only for the map access, with no blocking I/O inside the critical
section (the reader's blocking `read` happens before the lock is taken);
but `write_terminal` and `resize_terminal` keep the lock held across
their blocking `write_all`/`flush`/`resize` calls whenever the session
is live (when the session is absent or closed they do no I/O at all). -/
theorem lock_scope_spec (st : TerminalState) (session_id : String)
    (writeFail : Option String) :
    holdsLockAcrossIo spawn_insert_lockTrace = false ∧
    holdsLockAcrossIo close_terminal_lockTrace = false ∧
    holdsLockAcrossIo count_lockTrace = false ∧
    holdsLockAcrossIo reader_iteration_lockTrace = false ∧
    holdsLockAcrossIo reader_cleanup_lockTrace = false ∧
    (∀ s, st.sessions.find session_id = some s → s.closed = false →
      holdsLockAcrossIo (write_terminal_lockTrace st session_id writeFail) = true ∧
      holdsLockAcrossIo (resize_terminal_lockTrace st session_id) = true) ∧
    (st.sessions.find session_id = none →
      holdsLockAcrossIo (write_terminal_lockTrace st session_id writeFail) = false ∧
      holdsLockAcrossIo (resize_terminal_lockTrace st session_id) = false) := by
  refine ⟨rfl, rfl, rfl, rfl, rfl, fun s hs hc => ?_, fun hn => ?_⟩
  · cases writeFail with
    | some m =>
      exact ⟨by simp [write_terminal_lockTrace, hs, hc, holdsLockAcrossIo,
          lockHeldDuringIoAux],
        by simp [resize_terminal_lockTrace, hs, hc, holdsLockAcrossIo,
          lockHeldDuringIoAux]⟩
    | none =>
      exact ⟨by simp [write_terminal_lockTrace, hs, hc, holdsLockAcrossIo,
          lockHeldDuringIoAux],
        by simp [resize_terminal_lockTrace, hs, hc, holdsLockAcrossIo,
          lockHeldDuringIoAux]⟩
  · exact ⟨by simp [write_terminal_lockTrace, hn, holdsLockAcrossIo,
        lockHeldDuringIoAux],
      by simp [resize_terminal_lockTrace, hn, holdsLockAcrossIo,
        lockHeldDuringIoAux]⟩

/-- Witness for the amended C3 at the sample state. -/
theorem lock_scope_spec_witness :
    holdsLockAcrossIo (write_terminal_lockTrace sampleState "terminal-1" none) = true ∧
    holdsLockAcrossIo (write_terminal_lockTrace sampleState "terminal-9" none) = false :=
  ⟨((lock_scope_spec sampleState "terminal-1" none).2.2.2.2.2.1
      { masterRows := 24, masterCols := 80, writerBuf := [], closed := false }
      rfl rfl).1,
    ((lock_scope_spec sampleState "terminal-9" none).2.2.2.2.2.2 rfl).1⟩

/-- Claim C5: of two successful spawns in one manager lifetime — the
second one after an arbitrary sequence of further operations — the later
one returns a session id encoding a strictly greater counter value, and
the two id strings are distinct (ids are never reused). -/
theorem session_ids_strictly_increasing (st : TerminalState) (ops : List Op)
    (rows₁ cols₁ rows₂ cols₂ : Nat) (env₁ env₂ : SpawnEnv) (sid₁ sid₂ : String)
    (h₁ : (spawn_terminal st rows₁ cols₁ env₁).result = .ok sid₁)
    (h₂ : (spawn_terminal
        (runOps (spawn_terminal st rows₁ cols₁ env₁).state ops)
        rows₂ cols₂ env₂).result = .ok sid₂) :
    ∃ n₁ n₂ : Nat,
      sid₁ = "terminal-" ++ natToDecimal n₁ ∧
      sid₂ = "terminal-" ++ natToDecimal n₂ ∧
      n₁ < n₂ ∧ sid₁ ≠ sid₂ := by
  obtain ⟨hsid₁, hc₁⟩ := spawn_terminal_ok st rows₁ cols₁ env₁ sid₁ h₁
  obtain ⟨hsid₂, hc₂⟩ :=
    spawn_terminal_ok (runOps (spawn_terminal st rows₁ cols₁ env₁).state ops)
      rows₂ cols₂ env₂ sid₂ h₂
  have hmid : (spawn_terminal st rows₁ cols₁ env₁).state.counter ≤
      (runOps (spawn_terminal st rows₁ cols₁ env₁).state ops).counter :=
    counter_le_runOps _ ops
  have hlt : st.counter + 1 <
      (runOps (spawn_terminal st rows₁ cols₁ env₁).state ops).counter + 1 := by
    omega
  refine ⟨st.counter + 1,
    (runOps (spawn_terminal st rows₁ cols₁ env₁).state ops).counter + 1,
    hsid₁, hsid₂, hlt, ?_⟩
  intro he
  rw [hsid₁, hsid₂] at he
  have := sessionId_injective _ _ he
  omega

/-- Witness for C5: two consecutive successful spawns from the sample
state (counter 1) return "terminal-2" and then "terminal-3". -/
theorem session_ids_strictly_increasing_witness :
    ∃ n₁ n₂ : Nat,
      "terminal-2" = "terminal-" ++ natToDecimal n₁ ∧
      "terminal-3" = "terminal-" ++ natToDecimal n₂ ∧
      n₁ < n₂ ∧ "terminal-2" ≠ "terminal-3" :=
  session_ids_strictly_increasing sampleState [] 24 80 24 80 envAllOk envAllOk
    "terminal-2" "terminal-3" rfl rfl

/-- Claim C1: a reader loop that breaks on a zero-length read emits
exactly one exit event — `exit{code: 0}` with its own session id — and
then removes that id from the registry by exactly one `remove` call; a
loop that breaks for any cause removes exactly once, a loop that has
not broken has not removed; and no command-surface operation (`write`,
`resize`, `close`, `spawn`) ever removes a registry key, so the reader
loop's cleanup is the sole removal mechanism. -/
theorem reader_eof_spec (st : TerminalState) (session_id : String)
    (reads : List ReadResult)
    (h : (readerLoop session_id reads st).cause = some .eofBreak) :
    (readerLoop session_id reads st).events.filter Event.isExit
        = [Event.exited session_id 0] ∧
    (readerLoop session_id reads st).removeCalls = 1 ∧
    (readerLoop session_id reads st).state.sessions
        = st.sessions.erase session_id ∧
    (readerLoop session_id reads st).state.sessions.find session_id = none ∧
    (∀ sid' reads' st' b,
      (readerLoop sid' reads' st').cause = some b →
      (readerLoop sid' reads' st').removeCalls = 1 ∧
      (readerLoop sid' reads' st').state.sessions = st'.sessions.erase sid') ∧
    (∀ sid' reads' st',
      (readerLoop sid' reads' st').cause = none →
      (readerLoop sid' reads' st').removeCalls = 0 ∧
      (readerLoop sid' reads' st').state = st') ∧
    (∀ st' sid' data wf ff,
      (write_terminal st' sid' data wf ff).2.sessions.keys = st'.sessions.keys) ∧
    (∀ st' sid' r c rf,
      (resize_terminal st' sid' r c rf).2.sessions.keys = st'.sessions.keys) ∧
    (∀ st' sid', (close_terminal st' sid').2.sessions.keys = st'.sessions.keys) ∧
    (∀ st' r c env,
      st'.sessions.keys ⊆ (spawn_terminal st' r c env).state.sessions.keys) := by
  have hbody : (readerLoopBody session_id st reads).2 = some .eofBreak := by
    unfold readerLoop at h
    cases hb : (readerLoopBody session_id st reads).2 with
    | none => rw [hb] at h; cases h
    | some b =>
      rw [hb] at h
      exact h
  refine ⟨?_, ?_, ?_, ?_, ?_, ?_, ?_, ?_, ?_, ?_⟩
  · have := (readerLoopBody_eof session_id st reads hbody).1
    unfold readerLoop
    rw [hbody]
    exact this
  · unfold readerLoop; rw [hbody]
  · unfold readerLoop; rw [hbody]
  · unfold readerLoop; rw [hbody]
    exact st.sessions.find_erase_self session_id
  · intro sid' reads' st' b hb
    unfold readerLoop at hb ⊢
    cases hb' : (readerLoopBody sid' st' reads').2 with
    | none => rw [hb'] at hb; simp at hb
    | some b' => exact ⟨rfl, rfl⟩
  · intro sid' reads' st' hb
    unfold readerLoop at hb ⊢
    cases hb' : (readerLoopBody sid' st' reads').2 with
    | none => exact ⟨rfl, rfl⟩
    | some b' => rw [hb'] at hb; simp at hb
  · exact write_terminal_keys
  · exact resize_terminal_keys
  · exact close_terminal_keys
  · exact spawn_terminal_keys_subset

/-- Witness for C1: in the sample state, a reader trace of one data
chunk followed by EOF yields exactly one `exit{code: 0}` event and one
registry removal of "terminal-1". -/
theorem reader_eof_spec_witness :
    (readerLoop "terminal-1" [.bytesRead [104], .eofRead] sampleState).events.filter
        Event.isExit = [Event.exited "terminal-1" 0] ∧
    (readerLoop "terminal-1" [.bytesRead [104], .eofRead] sampleState).removeCalls = 1 ∧
    (readerLoop "terminal-1" [.bytesRead [104], .eofRead]
        sampleState).state.sessions.find "terminal-1" = none :=
  ⟨(reader_eof_spec sampleState "terminal-1" [.bytesRead [104], .eofRead] rfl).1,
    (reader_eof_spec sampleState "terminal-1" [.bytesRead [104], .eofRead] rfl).2.1,
    (reader_eof_spec sampleState "terminal-1" [.bytesRead [104], .eofRead] rfl).2.2.2.1⟩

/-- Claim C7: a reader loop that breaks on a read error emits exactly one
error event — carrying its own session id and the error description —
and no exit event, the session is then removed from the registry, and
every subsequent `write_terminal` or `resize_terminal` on that id (after
any further non-spawn operations) returns the not-found error — never
the closed error and never ok. -/
theorem reader_error_spec (st : TerminalState) (session_id : String)
    (reads : List ReadResult)
    (h : (readerLoop session_id reads st).cause = some .errBreak) :
    (∃ m, ReadResult.errRead m ∈ reads ∧
      (readerLoop session_id reads st).events.filter Event.isError
          = [Event.errored session_id m]) ∧
    (readerLoop session_id reads st).events.filter Event.isExit = [] ∧
    (readerLoop session_id reads st).state.sessions.find session_id = none ∧
    (∀ ops, (∀ op ∈ ops, op.isSpawn = false) →
      ∀ data wf ff,
        (write_terminal (runOps (readerLoop session_id reads st).state ops)
            session_id data wf ff).1 = .error (.sessionNotFound session_id)) ∧
    (∀ ops, (∀ op ∈ ops, op.isSpawn = false) →
      ∀ r c rf,
        (resize_terminal (runOps (readerLoop session_id reads st).state ops)
            session_id r c rf).1 = .error (.sessionNotFound session_id)) := by
  have hbody : (readerLoopBody session_id st reads).2 = some .errBreak := by
    unfold readerLoop at h
    cases hb : (readerLoopBody session_id st reads).2 with
    | none => rw [hb] at h; cases h
    | some b =>
      rw [hb] at h
      exact h
  have hfind : (readerLoop session_id reads st).state.sessions.find session_id
      = none := by
    unfold readerLoop; rw [hbody]
    exact st.sessions.find_erase_self session_id
  refine ⟨?_, ?_, hfind, ?_, ?_⟩
  · have := (readerLoopBody_err session_id st reads hbody).1
    unfold readerLoop
    rw [hbody]
    exact this
  · have := (readerLoopBody_err session_id st reads hbody).2
    unfold readerLoop
    rw [hbody]
    exact this
  · intro ops hops data wf ff
    have hnone := find_none_runOps (readerLoop session_id reads st).state ops
      session_id hops hfind
    simp [write_terminal, hnone]
  · intro ops hops r c rf
    have hnone := find_none_runOps (readerLoop session_id reads st).state ops
      session_id hops hfind
    simp [resize_terminal, hnone]

/-- Witness for C7: in the sample state, a reader trace ending in a read
error yields exactly one error event, removes "terminal-1", and a
following write is rejected as not found. -/
theorem reader_error_spec_witness :
    (readerLoop "terminal-1" [.errRead "input/output error"]
        sampleState).events.filter Event.isError
      = [Event.errored "terminal-1" "input/output error"] ∧
    (write_terminal
        (runOps (readerLoop "terminal-1" [.errRead "input/output error"]
          sampleState).state [])
        "terminal-1" [104] none none).1
      = .error (.sessionNotFound "terminal-1") := by
  obtain ⟨⟨m, hm, hfil⟩, -, -, hwrite, -⟩ :=
    reader_error_spec sampleState "terminal-1" [.errRead "input/output error"] rfl
  refine ⟨?_, hwrite [] (by simp) [104] none none⟩
  have : m = "input/output error" := by
    simpa using hm
  rw [this] at hfil
  exact hfil

end CCSD
